import Mathlib

/-!
Verification of the meilisearch python client library.

The definitions below are shallow embeddings of functions from
`meilisearch_python_sdk/index.py` and `meilisearch_python_sdk/_client.py`.
Python lists become `List`, `None`-able values become `Option`, raised
exceptions become `Except` error values, machine reals/datetimes are
modelled as integer Unix timestamps.
-/

namespace MeilisearchSdk

/-! ## Batch partitioning (`index.py`: `_batch`, `_combine_documents`) -/

/-- Python `range(start, stop, step)` for a non-negative step: the indices
`start, start + step, ...` strictly below `stop`.  (`range` with `step = 0`
raises in Python; here it returns `[]`, and every theorem using `rangeStep`
assumes `0 < step`.) -/
def rangeStep (start stop step : Nat) : List Nat :=
  if _h : start < stop ∧ 0 < step then
    start :: rangeStep (start + step) stop step
  else
    []
termination_by stop - start
decreasing_by simp_wf; omega

/-- `_batch(documents, batch_size)`: for `i in range(0, len(documents), batch_size)`
yield the slice `documents[i : i + batch_size]`.  A Python slice
`documents[i : i + b]` is `(documents.drop i).take b`. -/
def batch (documents : List α) (batch_size : Nat) : List (List α) :=
  (rangeStep 0 documents.length batch_size).map
    fun i => (documents.drop i).take batch_size

/-- `_combine_documents(documents)`: the comprehension
`[x for y in documents for x in y]`, i.e. concatenation in order. -/
def combineDocuments (documents : List (List α)) : List α :=
  documents.flatten

theorem rangeStep_cons (start stop step : Nat) (h1 : start < stop) (h2 : 0 < step) :
    rangeStep start stop step = start :: rangeStep (start + step) stop step := by
  rw [rangeStep]
  simp [h1, h2]

theorem rangeStep_nil (start stop step : Nat) (h1 : ¬ start < stop) :
    rangeStep start stop step = [] := by
  rw [rangeStep]
  simp [h1]

theorem batch_join_aux (docs : List α) (b : Nat) (hb : 0 < b) :
    ∀ n s, docs.length - s ≤ n →
      ((rangeStep s docs.length b).map (fun i => (docs.drop i).take b)).flatten = docs.drop s := by
  intro n
  induction n with
  | zero =>
    intro s hs
    have hle : docs.length ≤ s := by omega
    rw [rangeStep_nil _ _ _ (by omega)]
    simp [List.drop_eq_nil_of_le hle]
  | succ n ih =>
    intro s hs
    by_cases hlt : s < docs.length
    · rw [rangeStep_cons _ _ _ hlt hb]
      have ihs := ih (s + b) (by omega)
      simp only [List.map_cons, List.flatten_cons, ihs]
      have hdd : (docs.drop s).drop b = docs.drop (s + b) := by
        rw [List.drop_drop, Nat.add_comm]
      rw [← hdd, List.take_append_drop]
    · rw [rangeStep_nil _ _ _ hlt]
      have hle : docs.length ≤ s := by omega
      simp [List.drop_eq_nil_of_le hle]

/-- Ceiling-division step used to count the chunks. -/
theorem ceil_div_step (m b : Nat) (hm : 0 < m) (hb : 0 < b) :
    (m + b - 1) / b = (m - 1) / b + 1 := by
  have h1 : m + b - 1 = (m - 1) + b := by omega
  rw [h1, Nat.add_div_right _ hb]

theorem batch_count_aux (L b : Nat) (hb : 0 < b) :
    ∀ n s, L - s ≤ n → (rangeStep s L b).length = (L - s + b - 1) / b := by
  intro n
  induction n with
  | zero =>
    intro s hs
    rw [rangeStep_nil _ _ _ (by omega)]
    have hzero : L - s = 0 := by omega
    rw [hzero]
    simp [Nat.div_eq_of_lt (by omega : b - 1 < b)]
  | succ n ih =>
    intro s hs
    by_cases hlt : s < L
    · rw [rangeStep_cons _ _ _ hlt hb]
      have ihs := ih (s + b) (by omega)
      simp only [List.length_cons, ihs]
      have hm : 0 < L - s := by omega
      rw [ceil_div_step (L - s) b hm hb]
      by_cases hcase : s + b ≤ L
      · have h2 : L - (s + b) + b - 1 = L - s - 1 := by omega
        rw [h2]
      · have h2 : L - (s + b) = 0 := by omega
        rw [h2]
        have h3 : (0 + b - 1) / b = 0 := Nat.div_eq_of_lt (by omega)
        have h4 : (L - s - 1) / b = 0 := Nat.div_eq_of_lt (by omega)
        omega
    · rw [rangeStep_nil _ _ _ hlt]
      have hzero : L - s = 0 := by omega
      rw [hzero]
      simp [Nat.div_eq_of_lt (by omega : b - 1 < b)]

/-- C3: for every document list of size `N` and batch size `B ≥ 1`, `_batch`
yields exactly `⌈N / B⌉` chunks, each of size at most `B`, and
`_combine_documents` applied to the chunks gives back the original list
(hence the original order is preserved within and across chunks). -/
theorem batch_partition (docs : List α) (B : Nat) (hB : 1 ≤ B) :
    (batch docs B).length = (docs.length + B - 1) / B ∧
    (∀ c ∈ batch docs B, c.length ≤ B) ∧
    combineDocuments (batch docs B) = docs := by
  refine ⟨?_, ?_, ?_⟩
  · unfold batch
    rw [List.length_map]
    have := batch_count_aux docs.length B hB docs.length 0 (by omega)
    simpa using this
  · intro c hc
    unfold batch at hc
    rcases List.mem_map.mp hc with ⟨i, _, hci⟩
    rw [← hci]
    exact List.length_take_le _ _
  · unfold batch combineDocuments
    have := batch_join_aux docs B hB docs.length 0 (by omega)
    simpa using this

/-- Witness for C3 at a concrete input: five documents in batches of two give
three chunks, each of size at most two, concatenating back to the input. -/
theorem batch_partition_witness :
    (batch [10, 20, 30, 40, 50] 2).length = (5 + 2 - 1) / 2 ∧
    (∀ c ∈ batch [10, 20, 30, 40, 50] 2, c.length ≤ 2) ∧
    combineDocuments (batch [10, 20, 30, 40, 50] 2) = [10, 20, 30, 40, 50] :=
  batch_partition [10, 20, 30, 40, 50] 2 (by decide)

/-! ## Task poller (`_task.wait_for_task` / `_task.async_wait_for_task`)

`AsyncClient.wait_for_task` and `Client.wait_for_task` in `_client.py` both
delegate to `meilisearch_python_sdk._task`, whose source is not part of this
tree; the poller is therefore modelled from the spec (§4.1). -/

/-- Task status enumeration (spec §3: enqueued, processing, succeeded, failed,
canceled). -/
inductive TaskState where
  | enqueued
  | processing
  | succeeded
  | failed
  | canceled
  deriving DecidableEq, Repr

/-- Terminal statuses (spec glossary): succeeded, failed or canceled. -/
def TaskState.isTerminal : TaskState → Bool
  | .succeeded => true
  | .failed => true
  | .canceled => true
  | _ => false

/-- A task snapshot as observed by one poll: identifier, status and the
optional error payload the server reports for the task. -/
structure TaskSnapshot where
  uid : Nat
  status : TaskState
  error : Option String
  deriving DecidableEq, Repr

/-- Outcome of a `wait_for_task` call: a returned snapshot, a
`MeilisearchTaskFailedError` carrying the task (and hence the task's own
error payload), or a client-side `MeilisearchTimeoutError`. -/
inductive WaitOutcome where
  | result (t : TaskSnapshot)
  | taskFailedError (t : TaskSnapshot)
  | timeoutError
  deriving DecidableEq, Repr

/-- Modelled from the spec: the polling loop of
`meilisearch_python_sdk._task.wait_for_task` (not under `src/`; only the
delegating wrappers `AsyncClient.wait_for_task` and `Client.wait_for_task`
are).  Spec §4.1: repeatedly fetch the task; a terminal status stops the
loop — returning the snapshot, or failing with a `TaskFailed` error carrying
the task's error payload when `raise_for_status` is set and the status is
failed or canceled; a non-terminal status sleeps one poll interval and
retries; once the deadline elapses with no terminal status observed the
poller fails with a `Timeout` error.  `fetch k` is the server's answer to the
`k`-th poll; `fuel` is the number of polls that fit before the deadline. -/
def pollLoop (fetch : Nat → TaskSnapshot) (raise_for_status : Bool) :
    Nat → Nat → WaitOutcome
  | 0, _ => .timeoutError
  | fuel + 1, k =>
    let t := fetch k
    if t.status.isTerminal then
      if raise_for_status && (t.status == .failed || t.status == .canceled) then
        .taskFailedError t
      else
        .result t
    else
      pollLoop fetch raise_for_status fuel (k + 1)

/-- Modelled from the spec: `wait_for_task` with a finite deadline
`timeout_in_ms` and poll interval `interval_in_ms`.  Elapsed time is measured
from the first fetch (spec §4.1), so polls are performed at elapsed times
`0, i, 2i, …` while the elapsed time is below the deadline: exactly
`⌈timeout_in_ms / interval_in_ms⌉` polls.  A `timeout_in_ms` of `None` never
checks the deadline and may wait unboundedly, which has no total model; the
claims below only concern a finite deadline. -/
def wait_for_task (fetch : Nat → TaskSnapshot) (timeout_in_ms interval_in_ms : Nat)
    (raise_for_status : Bool) : WaitOutcome :=
  pollLoop fetch raise_for_status ((timeout_in_ms + interval_in_ms - 1) / interval_in_ms) 0

/-- A poll index is performed before the deadline exactly when its elapsed
time `k * i` is below the timeout. -/
theorem poll_before_deadline (k i T : Nat) (hi : 0 < i) :
    k * i < T ↔ k < (T + i - 1) / i := by
  have hsm : (k + 1) * i = k * i + i := by
    rw [Nat.add_mul, Nat.one_mul]
  constructor
  · intro h
    have h1 : (k + 1) * i ≤ T + i - 1 := by omega
    have h2 : k + 1 ≤ (T + i - 1) / i := (Nat.le_div_iff_mul_le hi).mpr h1
    omega
  · intro h
    have h1 : k + 1 ≤ (T + i - 1) / i := h
    have h2 : (k + 1) * i ≤ T + i - 1 := (Nat.le_div_iff_mul_le hi).mp h1
    have hT : 0 < T := by
      by_contra hT
      have : (T + i - 1) / i = 0 := by
        apply Nat.div_eq_of_lt
        omega
      omega
    omega

theorem pollLoop_timeout (fetch : Nat → TaskSnapshot) (r : Bool) :
    ∀ fuel k, (∀ j, j < fuel → (fetch (k + j)).status.isTerminal = false) →
      pollLoop fetch r fuel k = .timeoutError := by
  intro fuel
  induction fuel with
  | zero => intro k _; rfl
  | succ fuel ih =>
    intro k hnt
    have h0 : (fetch k).status.isTerminal = false := by
      have := hnt 0 (by omega)
      simpa using this
    rw [pollLoop]
    simp only [h0, Bool.false_eq_true, if_false]
    exact ih (k + 1) fun j hj => by
      have := hnt (j + 1) (by omega)
      simpa [Nat.add_assoc, Nat.add_comm 1 j] using this

/-- C1: if a task's status stays non-terminal at every poll performed before
the finite deadline `timeout_in_ms`, `wait_for_task` raises
`MeilisearchTimeoutError` and never returns a task snapshot.  The model is
purely observational — it only reads `fetch` — so the timeout cancels
nothing server-side. -/
theorem wait_for_task_timeout (fetch : Nat → TaskSnapshot) (T i : Nat)
    (r : Bool) (hi : 0 < i)
    (hnt : ∀ k, k * i < T → (fetch k).status.isTerminal = false) :
    wait_for_task fetch T i r = .timeoutError := by
  unfold wait_for_task
  apply pollLoop_timeout
  intro j hj
  have hj2 : j * i < T := (poll_before_deadline j i T hi).mpr (by omega)
  simpa using hnt j hj2

/-- Witness for C1: a task that stays `enqueued` forever times out with a
5000 ms deadline and 50 ms interval. -/
theorem wait_for_task_timeout_witness :
    wait_for_task (fun _ => ⟨7, .enqueued, none⟩) 5000 50 false = .timeoutError :=
  wait_for_task_timeout (fun _ => ⟨7, .enqueued, none⟩) 5000 50 false (by decide)
    (fun _ _ => rfl)

theorem pollLoop_first_terminal (fetch : Nat → TaskSnapshot) (r : Bool) :
    ∀ m fuel k, (∀ j, j < m → (fetch (k + j)).status.isTerminal = false) →
      (fetch (k + m)).status.isTerminal = true → m < fuel →
      pollLoop fetch r fuel k =
        (if r && ((fetch (k + m)).status == .failed || (fetch (k + m)).status == .canceled)
          then .taskFailedError (fetch (k + m))
          else .result (fetch (k + m))) := by
  intro m
  induction m with
  | zero =>
    intro fuel k _ ht hfuel
    match fuel, hfuel with
    | fuel + 1, _ =>
      rw [pollLoop]
      simp only [Nat.add_zero] at ht
      simp [ht]
  | succ m ih =>
    intro fuel k hnt ht hfuel
    match fuel, hfuel with
    | fuel + 1, hfuel =>
      have h0 : (fetch k).status.isTerminal = false := by
        have := hnt 0 (by omega)
        simpa using this
      rw [pollLoop]
      simp only [h0, Bool.false_eq_true, if_false]
      have harg : k + 1 + m = k + (m + 1) := by omega
      have := ih fuel (k + 1)
        (fun j hj => by
          have := hnt (j + 1) (by omega)
          simpa [Nat.add_assoc, Nat.add_comm 1 j] using this)
        (by rw [harg]; exact ht) (by omega)
      rw [this, harg]

/-- C2: if the first terminal status a task reaches before the deadline is
`failed` or `canceled`, `wait_for_task` returns that terminal snapshot when
`raise_for_status = false`, and raises `MeilisearchTaskFailedError` carrying
that same snapshot (and hence the task's own error payload) when
`raise_for_status = true`. -/
theorem wait_for_task_terminal_failed (fetch : Nat → TaskSnapshot) (T i m : Nat)
    (hi : 0 < i) (hm : m * i < T)
    (hnt : ∀ j, j < m → (fetch j).status.isTerminal = false)
    (hterm : (fetch m).status = .failed ∨ (fetch m).status = .canceled) :
    wait_for_task fetch T i false = .result (fetch m) ∧
    wait_for_task fetch T i true = .taskFailedError (fetch m) := by
  have hisTerm : (fetch m).status.isTerminal = true := by
    rcases hterm with h | h <;> rw [h] <;> rfl
  have hfuel : m < (T + i - 1) / i := (poll_before_deadline m i T hi).mp hm
  have hfc : ((fetch m).status == .failed || (fetch m).status == .canceled) = true := by
    rcases hterm with h | h <;> rw [h] <;> rfl
  constructor
  · have := pollLoop_first_terminal fetch false m ((T + i - 1) / i) 0
      (fun j hj => by simpa using hnt j hj) (by simpa using hisTerm) hfuel
    unfold wait_for_task
    rw [this]
    simp
  · have := pollLoop_first_terminal fetch true m ((T + i - 1) / i) 0
      (fun j hj => by simpa using hnt j hj) (by simpa using hisTerm) hfuel
    unfold wait_for_task
    rw [this]
    simp [hfc]

/-- Witness for C2: a task that is `enqueued` on the first poll and `failed`
on the second is returned (or raised, with `raise_for_status`) as the failed
snapshot. -/
theorem wait_for_task_terminal_failed_witness :
    wait_for_task
        (fun k => if k = 0 then ⟨3, .enqueued, none⟩ else ⟨3, .failed, some "boom"⟩)
        5000 50 false =
      .result ⟨3, .failed, some "boom"⟩ ∧
    wait_for_task
        (fun k => if k = 0 then ⟨3, .enqueued, none⟩ else ⟨3, .failed, some "boom"⟩)
        5000 50 true =
      .taskFailedError ⟨3, .failed, some "boom"⟩ :=
  wait_for_task_terminal_failed
    (fun k => if k = 0 then ⟨3, .enqueued, none⟩ else ⟨3, .failed, some "boom"⟩)
    5000 50 1 (by decide) (by decide)
    (fun j hj => by
      have hj0 : j = 0 := by omega
      subst hj0
      rfl)
    (Or.inl rfl)

/-! ## Tenant token generation (`_client.py`: `BaseClient.generate_tenant_token`)

Datetimes are modelled by their integer Unix timestamps;
`int(datetime.timestamp(expires_at))` is then `expires_at` itself, and
`datetime.now(tz=timezone.utc)` is an explicit `now` argument.  The external
`jwt.encode` serialises the payload dict; the model's result is that payload,
which is what decoding the token yields. -/

/-- A signing API key as used by `generate_tenant_token`: its uid, secret
value, and allowed indexes (`["*"]` meaning all). -/
structure ApiKey where
  uid : String
  key : String
  indexes : List String
  deriving DecidableEq, Repr

/-- The `search_rules` argument: a `JsonDict` — of which only the
`"indexes"` entry is inspected, the rest is carried opaquely — or a plain
list of strings such as `["*"]`. -/
inductive SearchRules where
  | dict (indexes : Option (List String)) (other : List (String × String))
  | strList (items : List String)
  deriving DecidableEq, Repr

/-- The claim set passed to `jwt.encode`: `searchRules` is the input rules
value, `apiKeyUid` the signing key's uid, `exp` the optional expiry
timestamp. -/
structure TenantTokenPayload where
  searchRules : SearchRules
  apiKeyUid : String
  exp : Option Int
  deriving DecidableEq, Repr

/-- Errors `generate_tenant_token` can raise locally. -/
inductive TokenError where
  | invalidRestriction (msg : String)
  | valueError (msg : String)
  deriving DecidableEq, Repr

/-- Python truthiness of `search_rules.get("indexes")`: the key must be
present and hold a non-empty list. -/
def indexesTruthy : SearchRules → Option (List String)
  | .dict (some idxs) _ => if idxs.isEmpty then none else some idxs
  | _ => none

/-- The loop `for index in search_rules["indexes"]` raises exactly when some
listed index satisfies `api_key.indexes != ["*"] and index not in
api_key.indexes`; the loop only runs when `search_rules.get("indexes")` is
truthy. -/
def restrictionViolated (search_rules : SearchRules) (api_key : ApiKey) : Bool :=
  match indexesTruthy search_rules with
  | some idxs => idxs.any fun index => api_key.indexes ≠ ["*"] && index ∉ api_key.indexes
  | none => false

/-- `BaseClient.generate_tenant_token`: when `search_rules` is a dict whose
`"indexes"` entry is truthy, every listed index is checked against the
signing key's indexes (skipped when those are `["*"]`), raising
`InvalidRestriction` on a mismatch; then the payload is built from the rules
and the key's uid; a supplied `expires_at` must be strictly in the future or
a `ValueError` is raised, and otherwise contributes the `exp` claim. -/
def generate_tenant_token (search_rules : SearchRules) (api_key : ApiKey)
    (expires_at : Option Int) (now : Int) : Except TokenError TenantTokenPayload :=
  if restrictionViolated search_rules api_key then
    .error (.invalidRestriction
      "Invalid index. The token cannot be less restrictive than the API key")
  else
    match expires_at with
    | some e =>
      if e ≤ now then
        .error (.valueError "expires_at must be a time in the future")
      else
        .ok { searchRules := search_rules, apiKeyUid := api_key.uid, exp := some e }
    | none => .ok { searchRules := search_rules, apiKeyUid := api_key.uid, exp := none }

/-- Counterexample to C4 as stated: with a signing key allowing indexes
`["a", "b"]` (not the wildcard), a request naming only the allowed index
`"a"` but carrying an expired `expires_at` raises `ValueError` — no token
with the promised payload is returned, refuting the claim's unconditional
"otherwise it returns a token". -/
theorem generate_tenant_token_c4_counterexample :
    (∀ i ∈ ["a"], i ∈ (["a", "b"] : List String)) ∧
    generate_tenant_token (.dict (some ["a"]) []) ⟨"uid1", "secret", ["a", "b"]⟩
        (some 0) 5 =
      .error (.valueError "expires_at must be a time in the future") := by
  constructor
  · decide
  · rfl

/-- C4 (amended): for `search_rules` a mapping naming allowed indexes and a
signing key whose indexes are not `["*"]`: a requested index outside the
key's indexes raises `InvalidRestriction`; otherwise — provided any supplied
`expires_at` is strictly in the future — a token is returned whose decoded
payload has `searchRules` equal to the input exactly and `apiKeyUid` equal
to the signing key's uid. -/
theorem generate_tenant_token_restriction (idxs : List String)
    (other : List (String × String)) (api_key : ApiKey) (expires_at : Option Int)
    (now : Int) (hkey : api_key.indexes ≠ ["*"]) :
    ((∃ i ∈ idxs, i ∉ api_key.indexes) →
      generate_tenant_token (.dict (some idxs) other) api_key expires_at now =
        .error (.invalidRestriction
          "Invalid index. The token cannot be less restrictive than the API key")) ∧
    ((∀ i ∈ idxs, i ∈ api_key.indexes) → (∀ e ∈ expires_at, now < e) →
      generate_tenant_token (.dict (some idxs) other) api_key expires_at now =
        .ok { searchRules := .dict (some idxs) other, apiKeyUid := api_key.uid,
              exp := expires_at }) := by
  constructor
  · rintro ⟨i, hi, hni⟩
    have hne : idxs.isEmpty = false := by
      cases idxs with
      | nil => cases hi
      | cons a l => rfl
    have hviol : restrictionViolated (.dict (some idxs) other) api_key = true := by
      simp only [restrictionViolated, indexesTruthy, hne, Bool.false_eq_true, if_false,
        List.any_eq_true]
      exact ⟨i, hi, by simp [hkey, hni]⟩
    unfold generate_tenant_token
    rw [hviol]
    rfl
  · intro hall hfuture
    have hviol : restrictionViolated (.dict (some idxs) other) api_key = false := by
      simp only [restrictionViolated, indexesTruthy]
      cases hemp : idxs.isEmpty
      · simp only [hemp, Bool.false_eq_true, if_false, List.any_eq_false]
        intro i hi
        simp [hall i hi]
      · simp [hemp]
    unfold generate_tenant_token
    rw [hviol]
    simp only [Bool.false_eq_true, if_false]
    cases expires_at with
    | none => rfl
    | some e =>
      have he : ¬ e ≤ now := by
        have := hfuture e rfl
        omega
      simp [he]

/-- Witness for C4 (amended): key restricted to `["a", "b"]`; requesting
`["c"]` raises `InvalidRestriction`, requesting `["a"]` with a future expiry
yields the payload with the input rules and the key's uid. -/
theorem generate_tenant_token_restriction_witness :
    ((∃ i ∈ ["c"], i ∉ (["a", "b"] : List String)) →
      generate_tenant_token (.dict (some ["c"]) []) ⟨"uid1", "secret", ["a", "b"]⟩
          (some 100) 5 =
        .error (.invalidRestriction
          "Invalid index. The token cannot be less restrictive than the API key")) ∧
    ((∀ i ∈ ["c"], i ∈ (["a", "b"] : List String)) → (∀ e ∈ (some 100 : Option Int), (5 : Int) < e) →
      generate_tenant_token (.dict (some ["c"]) []) ⟨"uid1", "secret", ["a", "b"]⟩
          (some 100) 5 =
        .ok { searchRules := .dict (some ["c"]) [], apiKeyUid := "uid1",
              exp := some 100 }) :=
  generate_tenant_token_restriction ["c"] [] ⟨"uid1", "secret", ["a", "b"]⟩
    (some 100) 5 (by decide)

/-- Counterexample to C5 as stated: a call whose `expires_at` is in the past
but whose `search_rules` name an index outside the signing key's indexes
raises `InvalidRestriction`, not `ValueError` — the restriction check runs
first — refuting "for every call with a non-None `expires_at` not strictly
in the future, a `ValueError` is raised". -/
theorem generate_tenant_token_c5_counterexample :
    ((0 : Int) ≤ 5) ∧
    generate_tenant_token (.dict (some ["c"]) []) ⟨"uid1", "secret", ["a"]⟩
        (some 0) 5 =
      .error (.invalidRestriction
        "Invalid index. The token cannot be less restrictive than the API key") := by
  constructor
  · decide
  · rfl

/-- C5 (amended): provided the index-restriction check passes (the rules are
not a mapping naming an index outside a non-wildcard signing key's indexes),
a non-None `expires_at` not strictly in the future raises `ValueError`
before any token is produced, and a strictly future `expires_at` yields a
token whose decoded `exp` claim equals the Unix timestamp of
`expires_at`. -/
theorem generate_tenant_token_expiry (search_rules : SearchRules) (api_key : ApiKey)
    (e now : Int)
    (hok : ∀ idxs ∈ indexesTruthy search_rules,
      api_key.indexes = ["*"] ∨ ∀ i ∈ idxs, i ∈ api_key.indexes) :
    (e ≤ now →
      generate_tenant_token search_rules api_key (some e) now =
        .error (.valueError "expires_at must be a time in the future")) ∧
    (now < e →
      generate_tenant_token search_rules api_key (some e) now =
        .ok { searchRules := search_rules, apiKeyUid := api_key.uid, exp := some e }) := by
  have hviol : restrictionViolated search_rules api_key = false := by
    unfold restrictionViolated
    cases htr : indexesTruthy search_rules with
    | none => rfl
    | some idxs =>
      rw [List.any_eq_false]
      intro i hi
      rcases hok idxs htr with hstar | hall
      · simp [hstar]
      · simp [hall i hi]
  unfold generate_tenant_token
  rw [hviol]
  constructor
  · intro he
    simp [he]
  · intro he
    have hne : ¬ e ≤ now := by omega
    simp [hne]

/-- Witness for C5 (amended): with wildcard-free rules naming only allowed
indexes, a past expiry raises `ValueError` and a future one yields `exp`
equal to the supplied timestamp. -/
theorem generate_tenant_token_expiry_witness :
    (((100 : Int) ≤ 200) →
      generate_tenant_token (.strList ["*"]) ⟨"uid1", "secret", ["a"]⟩ (some 100) 200 =
        .error (.valueError "expires_at must be a time in the future")) ∧
    (((200 : Int) < 100) →
      generate_tenant_token (.strList ["*"]) ⟨"uid1", "secret", ["a"]⟩ (some 100) 200 =
        .ok { searchRules := .strList ["*"], apiKeyUid := "uid1", exp := some 100 }) :=
  generate_tenant_token_expiry (.strList ["*"]) ⟨"uid1", "secret", ["a"]⟩ 100 200
    (fun idxs h => by simp [indexesTruthy] at h)

/-! ## Error taxonomy and `get_or_create_index` (`_client.py`) -/

/-- The error kinds a client call can surface (spec §7): an `ApiError`
carries the HTTP status and the server error body's `code`; the other kinds
carry no structure the claims need. -/
inductive MeiliError where
  | apiError (statusCode : Nat) (code : String)
  | communicationError (msg : String)
  | timeoutError
  | taskFailedError (msg : String)
  deriving DecidableEq, Repr

/-- `leadsWith sub s`: `sub` is an initial run of `s`. -/
def leadsWith : List Char → List Char → Bool
  | [], _ => true
  | _ :: _, [] => false
  | a :: as, b :: bs => a == b && leadsWith as bs

/-- `containsRun sub s`: the characters of `sub` occur contiguously in `s`. -/
def containsRun (sub : List Char) (s : List Char) : Bool :=
  match s with
  | [] => sub.isEmpty
  | c :: rest => leadsWith sub (c :: rest) || containsRun sub rest

/-- Python's substring test `sub in s`. -/
def pyInStr (sub s : String) : Bool :=
  containsRun sub.toList s.toList

/-- A fetched or created index reference (only the uid matters to the
claims). -/
structure IndexRef where
  uid : String
  deriving DecidableEq, Repr

/-- `AsyncClient.get_or_create_index` / `Client.get_or_create_index`:
`try: get_index(uid)`; on `MeilisearchApiError err`, re-raise unless
`"index_not_found" in err.code`, else fall through to `create_index`.
`fetch` and `create` are the outcomes of the two inner calls. -/
def get_or_create_index (fetch create : Except MeiliError IndexRef) :
    Except MeiliError IndexRef :=
  match fetch with
  | .ok idx => .ok idx
  | .error (.apiError status code) =>
    if pyInStr "index_not_found" code then create
    else .error (.apiError status code)
  | .error e => .error e

/-- C7: `get_or_create_index` catches exactly the `ApiError` whose error
code indicates the index was not found (the code contains
`"index_not_found"`) and falls through to the `create_index` call; an
`ApiError` with any other code, and every non-`ApiError` error, is re-raised
unchanged, and a successful fetch is returned as-is. -/
theorem get_or_create_index_spec (fetch create : Except MeiliError IndexRef) :
    (∀ idx, fetch = .ok idx → get_or_create_index fetch create = .ok idx) ∧
    (∀ status code, fetch = .error (.apiError status code) →
      (pyInStr "index_not_found" code = true →
        get_or_create_index fetch create = create) ∧
      (pyInStr "index_not_found" code = false →
        get_or_create_index fetch create = .error (.apiError status code))) ∧
    (∀ e, fetch = .error e → (∀ status code, e ≠ .apiError status code) →
      get_or_create_index fetch create = .error e) := by
  refine ⟨?_, ?_, ?_⟩
  · intro idx h
    subst h
    rfl
  · intro status code h
    subst h
    constructor
    · intro hc
      simp [get_or_create_index, hc]
    · intro hc
      simp [get_or_create_index, hc]
  · intro e h hne
    subst h
    cases e with
    | apiError status code => exact absurd rfl (hne status code)
    | communicationError msg => rfl
    | timeoutError => rfl
    | taskFailedError msg => rfl

/-- Witness for C7: a 404 `ApiError` with code `"index_not_found"` falls
through to the create call's result; a 403 `ApiError` with code
`"invalid_api_key"` is re-raised unchanged; a communication error is
re-raised unchanged. -/
theorem get_or_create_index_witness :
    get_or_create_index (.error (.apiError 404 "index_not_found")) (.ok ⟨"movies"⟩) =
      .ok ⟨"movies"⟩ ∧
    get_or_create_index (.error (.apiError 403 "invalid_api_key")) (.ok ⟨"movies"⟩) =
      .error (.apiError 403 "invalid_api_key") ∧
    get_or_create_index (.error (.communicationError "refused")) (.ok ⟨"movies"⟩) =
      .error (.communicationError "refused") := by
  refine ⟨?_, ?_, ?_⟩
  · exact ((get_or_create_index_spec (.error (.apiError 404 "index_not_found"))
      (.ok ⟨"movies"⟩)).2.1 404 "index_not_found" rfl).1 (by decide)
  · exact ((get_or_create_index_spec (.error (.apiError 403 "invalid_api_key"))
      (.ok ⟨"movies"⟩)).2.1 403 "invalid_api_key" rfl).2 (by decide)
  · exact (get_or_create_index_spec (.error (.communicationError "refused"))
      (.ok ⟨"movies"⟩)).2.2 (.communicationError "refused") rfl
      (fun status code h => MeiliError.noConfusion h)

/-! ## `get_raw_index` versus `get_index` (`_client.py`) -/

/-- The JSON body the index endpoint returns: `uid`, `primaryKey`,
`createdAt`, `updatedAt`. -/
structure IndexJson where
  uid : String
  primaryKey : Option String
  createdAt : String
  updatedAt : String
  deriving DecidableEq, Repr

/-- `IndexInfo(**response.json())`. -/
structure IndexInfo where
  uid : String
  primaryKey : Option String
  createdAt : String
  updatedAt : String
  deriving DecidableEq, Repr

def IndexInfo.ofJson (j : IndexJson) : IndexInfo :=
  { uid := j.uid, primaryKey := j.primaryKey, createdAt := j.createdAt,
    updatedAt := j.updatedAt }

/-- A server response to `GET indexes/{uid}`: HTTP status, the JSON body on
success, and the error body's `code` on failure. -/
structure HttpResponse where
  statusCode : Nat
  body : IndexJson
  errorCode : String
  deriving DecidableEq, Repr

/-- `AsyncClient.get_raw_index` / `Client.get_raw_index`: the GET goes
through the raw http client (not the adapter), so no status check is made
beyond `if response.status_code == 404: return None`; any other response has
`IndexInfo(**response.json())` built from its body. -/
def get_raw_index (resp : HttpResponse) : Option IndexInfo :=
  if resp.statusCode == 404 then none
  else some (IndexInfo.ofJson resp.body)

/-- Modelled from the spec: the transport adapter `_http_requests` (not under
`src/`) through which `fetch_info` issues its GET maps every non-2xx
response to an `ApiError` carrying the status code and the server's error
body, and passes 2xx responses through (spec §4.3). -/
def adapterGet (resp : HttpResponse) : Except MeiliError HttpResponse :=
  if 200 ≤ resp.statusCode ∧ resp.statusCode < 300 then .ok resp
  else .error (.apiError resp.statusCode resp.errorCode)

/-- `AsyncClient.get_index` / `Client.get_index`: delegate to
`AsyncIndex(...).fetch_info()` (`index.py`), which issues the GET through
the adapter and populates the index's `primary_key`, `created_at` and
`updated_at` from the JSON body. -/
def get_index (uid : String) (resp : HttpResponse) : Except MeiliError IndexInfo :=
  (adapterGet resp).map fun r =>
    { uid := uid, primaryKey := r.body.primaryKey, createdAt := r.body.createdAt,
      updatedAt := r.body.updatedAt }

/-- C10: `get_raw_index` returns `None` exactly when the response status is
404 — raising nothing in that case — and builds an `IndexInfo` from the JSON
body for every other status, while `get_index` on the same 404 response
propagates an `ApiError` instead of returning `None`. -/
theorem get_raw_index_vs_get_index (resp : HttpResponse) (uid : String) :
    (get_raw_index resp = none ↔ resp.statusCode = 404) ∧
    (resp.statusCode ≠ 404 → get_raw_index resp = some (IndexInfo.ofJson resp.body)) ∧
    (resp.statusCode = 404 →
      get_index uid resp = .error (.apiError 404 resp.errorCode)) := by
  refine ⟨?_, ?_, ?_⟩
  · constructor
    · intro h
      by_contra hne
      simp [get_raw_index, hne] at h
    · intro h
      simp [get_raw_index, h]
  · intro h
    simp [get_raw_index, h]
  · intro h
    unfold get_index adapterGet
    rw [h]
    rw [if_neg (by omega : ¬ (200 ≤ 404 ∧ 404 < 300))]
    rfl

/-- Witness for C10: a 404 response yields `None` from `get_raw_index` and
an `ApiError` from `get_index`; a 200 response yields the parsed body. -/
theorem get_raw_index_vs_get_index_witness :
    get_raw_index ⟨404, ⟨"", none, "", ""⟩, "index_not_found"⟩ = none ∧
    get_index "movies" ⟨404, ⟨"", none, "", ""⟩, "index_not_found"⟩ =
      .error (.apiError 404 "index_not_found") ∧
    get_raw_index ⟨200, ⟨"movies", some "id", "t0", "t1"⟩, ""⟩ =
      some ⟨"movies", some "id", "t0", "t1"⟩ := by
  refine ⟨?_, ?_, ?_⟩
  · exact (get_raw_index_vs_get_index ⟨404, ⟨"", none, "", ""⟩, "index_not_found"⟩
      "movies").1.mpr rfl
  · exact (get_raw_index_vs_get_index ⟨404, ⟨"", none, "", ""⟩, "index_not_found"⟩
      "movies").2.2 rfl
  · exact (get_raw_index_vs_get_index ⟨200, ⟨"movies", some "id", "t0", "t1"⟩, ""⟩
      "movies").2.1 (by decide)

/-! ## CSV delimiter validation (`index.py`: `_load_documents_from_file`,
`_async_load_documents_from_file`, `add_documents_from_raw_file`,
`_validate_file_type`) -/

/-- Python truthiness of an optional string: present and non-empty. -/
def strTruthy : Option String → Bool
  | some s => !s.isEmpty
  | none => false

/-- Python `str.isascii()`: every character's code point is below 128 (and
the empty string is ASCII). -/
def pyIsAscii (s : String) : Bool :=
  s.toList.all fun c => c.toNat < 128

/-- The delimiter guard, verbatim precedence from the source:
`csv_delimiter and len(csv_delimiter) != 1 or csv_delimiter and not
csv_delimiter.isascii()`. -/
def delimiterInvalid (csv_delimiter : Option String) : Bool :=
  (strTruthy csv_delimiter && !((csv_delimiter.getD "").length == 1)) ||
  (strTruthy csv_delimiter && !pyIsAscii (csv_delimiter.getD ""))

/-- The locally raised errors of the document-loading helpers. -/
inductive LoadError where
  | valueError (msg : String)
  | meilisearchError (msg : String)
  deriving DecidableEq, Repr

/-- Which reader `_load_documents_from_file` ends up using. -/
inductive LoadAction where
  | csvRead (delimiter : Option String)
  | ndjsonRead
  | jsonRead
  deriving DecidableEq, Repr

/-- `_validate_file_type(file_path)`: the suffix must be `.json`, `.csv` or
`.ndjson`. -/
def validate_file_type (suffix : String) : Except LoadError Unit :=
  if suffix = ".json" ∨ suffix = ".csv" ∨ suffix = ".ndjson" then .ok ()
  else .error (.meilisearchError "File must be a json, ndjson, or csv file")

/-- `_load_documents_from_file` (and its async twin, whose control flow is
identical): validate the file type; for a `.csv` suffix check the delimiter
guard and read with `DictReader` (explicit delimiter only when truthy); for
`.ndjson` parse line-wise; otherwise parse as a JSON list.  The delimiter is
never inspected outside the `.csv` branch. -/
def load_documents_from_file (suffix : String) (csv_delimiter : Option String) :
    Except LoadError LoadAction :=
  match validate_file_type suffix with
  | .error e => .error e
  | .ok _ =>
    if suffix = ".csv" then
      if delimiterInvalid csv_delimiter then
        .error (.valueError "csv_delimiter must be a single ascii character")
      else if strTruthy csv_delimiter then
        .ok (.csvRead csv_delimiter)
      else
        .ok (.csvRead none)
    else if suffix = ".ndjson" then
      .ok .ndjsonRead
    else
      .ok .jsonRead

/-- The HTTP request `add_documents_from_raw_file` would issue: content type
and the query parameters actually included. -/
structure RawUploadRequest where
  contentType : String
  primaryKeyParam : Option String
  csvDelimiterParam : Option String
  deriving DecidableEq, Repr

/-- `AsyncIndex.add_documents_from_raw_file` / `Index.add_documents_from_raw_file`
up to the point the request is issued: existence check, suffix check,
delimiter-for-non-csv check, delimiter guard, then the request with its
query parameters (each included only when truthy). -/
def add_documents_from_raw_file (file_exists : Bool) (suffix : String)
    (primary_key csv_delimiter : Option String) : Except LoadError RawUploadRequest :=
  if !file_exists then
    .error (.meilisearchError "No file found at the specified path")
  else if ¬ (suffix = ".csv" ∨ suffix = ".ndjson") then
    .error (.valueError "Only csv and ndjson files can be sent as binary files")
  else if strTruthy csv_delimiter && !(suffix == ".csv") then
    .error (.valueError "A csv_delimiter can only be used with csv files")
  else if delimiterInvalid csv_delimiter then
    .error (.valueError "csv_delimiter must be a single ascii character")
  else
    .ok { contentType := if suffix = ".csv" then "text/csv" else "application/x-ndjson",
          primaryKeyParam := if strTruthy primary_key then primary_key else none,
          csvDelimiterParam := if strTruthy csv_delimiter then csv_delimiter else none }

/-- Counterexample to C8 as stated: a document-loading call supplying the
delimiter `";"` for a `.ndjson` file raises no `ValueError` at all — the
delimiter guard of `_load_documents_from_file` sits inside the `.csv`
branch, so the delimiter is silently ignored for other suffixes. -/
theorem load_documents_c8_counterexample :
    load_documents_from_file ".ndjson" (some ";") = .ok .ndjsonRead := by
  rfl

/-- C8 (amended): for `.csv` files — in both the document-loading helpers
and `add_documents_from_raw_file` — a supplied non-empty `csv_delimiter`
whose length is not exactly 1 or that is not ASCII raises `ValueError`
locally, before any request is issued; a non-empty `csv_delimiter` for a
non-`.csv` file raises `ValueError` in `add_documents_from_raw_file` only,
while the document-loading helpers ignore it; an empty-string delimiter is
everywhere treated as absent. -/
theorem csv_delimiter_validation (d : Option String) :
    (strTruthy d = true → ((d.getD "").length ≠ 1 ∨ pyIsAscii (d.getD "") = false) →
      load_documents_from_file ".csv" d =
        .error (.valueError "csv_delimiter must be a single ascii character") ∧
      add_documents_from_raw_file true ".csv" none d =
        .error (.valueError "csv_delimiter must be a single ascii character")) ∧
    (strTruthy d = true →
      add_documents_from_raw_file true ".ndjson" none d =
        .error (.valueError "A csv_delimiter can only be used with csv files")) ∧
    (load_documents_from_file ".ndjson" d = .ok .ndjsonRead ∧
      load_documents_from_file ".json" d = .ok .jsonRead) ∧
    load_documents_from_file ".csv" (some "") = .ok (.csvRead none) := by
  refine ⟨?_, ?_, ⟨?_, ?_⟩, ?_⟩
  · intro ht hbad
    have hinv : delimiterInvalid d = true := by
      unfold delimiterInvalid
      rcases hbad with h | h
      · apply Bool.or_eq_true_iff.mpr
        left
        simp [ht, h]
      · apply Bool.or_eq_true_iff.mpr
        right
        simp [ht, h]
    constructor
    · unfold load_documents_from_file validate_file_type
      simp [hinv]
    · unfold add_documents_from_raw_file
      simp [hinv]
  · intro ht
    unfold add_documents_from_raw_file
    simp [ht]
  · unfold load_documents_from_file validate_file_type
    simp
  · unfold load_documents_from_file validate_file_type
    simp
  · rfl

/-- Witness for C8 (amended) at the delimiter `";;"` (length 2): both the
loading helper and the raw upload reject it for `.csv` files, the raw upload
rejects it for an `.ndjson` file, and the loading helper ignores it for
`.ndjson`/`.json` files. -/
theorem csv_delimiter_validation_witness :
    (load_documents_from_file ".csv" (some ";;") =
        .error (.valueError "csv_delimiter must be a single ascii character") ∧
      add_documents_from_raw_file true ".csv" none (some ";;") =
        .error (.valueError "csv_delimiter must be a single ascii character")) ∧
    add_documents_from_raw_file true ".ndjson" none (some ";;") =
      .error (.valueError "A csv_delimiter can only be used with csv files") ∧
    (load_documents_from_file ".ndjson" (some ";;") = .ok .ndjsonRead ∧
      load_documents_from_file ".json" (some ";;") = .ok .jsonRead) ∧
    load_documents_from_file ".csv" (some "") = .ok (.csvRead none) := by
  have h := csv_delimiter_validation (some ";;")
  exact ⟨h.1 (by decide) (Or.inl (by decide)), h.2.1 (by decide), h.2.2.1, h.2.2.2⟩

/-! ## Directory ingestion dispatch order (`index.py`:
`AsyncIndex.add_documents_from_directory`,
`AsyncIndex.add_documents_from_directory_in_batches`) -/

/-- A dispatch schedule: the uploads awaited to completion on their own,
before the remaining uploads are dispatched concurrently. -/
structure DispatchPlan (α : Type) where
  awaitedAlone : List α
  concurrent : List α
  deriving DecidableEq, Repr

/-- The `combine_documents=False` gather path shared (verbatim) by
`AsyncIndex.add_documents_from_directory` (on interpreters without task
groups) and `AsyncIndex.add_documents_from_directory_in_batches` (always):
with more than one pending upload, `first_response = [await
add_documents.pop()]` awaits the upload popped from the END of the list,
then `asyncio.gather(*add_documents)` dispatches the remaining uploads
concurrently; with a single pending upload it is simply awaited.  `uploads`
holds one element per matching source file, in directory-iteration order. -/
def directoryGatherPlan (uploads : List α) : DispatchPlan α :=
  if uploads.length > 1 then
    { awaitedAlone := uploads.getLast?.toList, concurrent := uploads.dropLast }
  else
    { awaitedAlone := uploads.take 1, concurrent := [] }

/-- C6 evaluated at the failing input: with two matching files' uploads
`[u0, u1]`, the upload awaited alone is `u1` — the one from the LAST file
(`list.pop()` pops the end) — while the first file's upload goes into the
concurrent batch.  This contradicts the claim and the code's own comment
("Send the first document on its own before starting the gather"). -/
theorem directoryGatherPlan_two_files :
    directoryGatherPlan [0, 1] =
      { awaitedAlone := [1], concurrent := [0] } ∧
    (directoryGatherPlan [0, 1]).awaitedAlone ≠ [0] := by
  constructor
  · rfl
  · decide

/-- A directory entry as seen by `directory.iterdir()`: its suffix and the
documents loaded from it. -/
structure DirEntry (α : Type) where
  suffix : String
  docs : List α
  deriving DecidableEq, Repr

/-- A request issued by `AsyncIndex.add_documents(documents, primary_key)`:
the URL carries a `primaryKey` query parameter iff `primary_key` is
truthy. -/
structure AddDocsRequest (α : Type) where
  docs : List α
  primaryKeyParam : Option String
  deriving DecidableEq, Repr

def addDocumentsRequest (docs : List α) (primary_key : Option String) :
    AddDocsRequest α :=
  { docs := docs, primaryKeyParam := if strTruthy primary_key then primary_key else none }

/-- The task-group path of `AsyncIndex.add_documents_from_directory` with
`combine_documents=False`: `for i, path in enumerate(directory.iterdir())`,
entries with the matching suffix are uploaded — the one at enumeration
index `i == 0` via `await self.add_documents(documents)` (no `primary_key`
argument) before the task group's tasks run, the others as concurrent tasks
via `self.add_documents(documents, primary_key)`.  `i` counts ALL directory
entries, matching or not. -/
def taskGroupLoop (document_type : String) (primary_key : Option String) :
    Nat → List (DirEntry α) → DispatchPlan (AddDocsRequest α)
  | _, [] => { awaitedAlone := [], concurrent := [] }
  | i, e :: rest =>
    let plan := taskGroupLoop document_type primary_key (i + 1) rest
    if e.suffix = "." ++ document_type then
      if i = 0 then
        { awaitedAlone := addDocumentsRequest e.docs none :: plan.awaitedAlone,
          concurrent := plan.concurrent }
      else
        { awaitedAlone := plan.awaitedAlone,
          concurrent := addDocumentsRequest e.docs primary_key :: plan.concurrent }
    else
      plan

def addDocumentsFromDirectoryTaskGroupPlan (entries : List (DirEntry α))
    (document_type : String) (primary_key : Option String) :
    DispatchPlan (AddDocsRequest α) :=
  taskGroupLoop document_type primary_key 0 entries

/-- Counterexample to C9 as stated: with directory entries
`[a.txt, b.json]` and `document_type="json"`, the first MATCHING file is
`b.json`, but it sits at enumeration index 1, so its request is dispatched
concurrently WITH the `primaryKey` parameter, and no upload is awaited
alone — the `i == 0` test counts all entries, not matching ones. -/
theorem taskGroupPlan_c9_counterexample :
    addDocumentsFromDirectoryTaskGroupPlan
        [⟨".txt", [0]⟩, ⟨".json", [1]⟩] "json" (some "pk") =
      { awaitedAlone := [],
        concurrent := [{ docs := [1], primaryKeyParam := some "pk" }] } := by
  rfl

/-- Matching entries of the tail are always dispatched concurrently with the
`primary_key` argument: the enumeration index of a tail entry is never 0. -/
theorem taskGroupLoop_pos (document_type : String) (primary_key : Option String)
    (rest : List (DirEntry α)) :
    ∀ i, i ≠ 0 →
      taskGroupLoop document_type primary_key i rest =
        { awaitedAlone := [],
          concurrent :=
            (rest.filter fun e => e.suffix = "." ++ document_type).map
              fun e => addDocumentsRequest e.docs primary_key } := by
  induction rest with
  | nil => intro i _; rfl
  | cons e rest ih =>
    intro i hi
    rw [taskGroupLoop]
    rw [ih (i + 1) (by omega)]
    by_cases hm : e.suffix = "." ++ document_type
    · simp [hm, hi]
    · simp [hm]

/-- C9 (amended): in the task-group path with `combine_documents=False`, it
is the directory entry at enumeration index 0 — when its suffix matches the
document type — whose documents are uploaded alone without the
`primary_key` argument (so its request omits the `primaryKey` parameter),
with every matching later entry dispatched concurrently with `primary_key`;
when the first directory entry does not match, nothing is awaited alone and
every matching entry's request carries the `primaryKey` parameter. -/
theorem taskGroupPlan_first_entry (e0 : DirEntry α) (rest : List (DirEntry α))
    (document_type : String) (primary_key : Option String) :
    (e0.suffix = "." ++ document_type →
      addDocumentsFromDirectoryTaskGroupPlan (e0 :: rest) document_type primary_key =
        { awaitedAlone := [addDocumentsRequest e0.docs none],
          concurrent :=
            (rest.filter fun e => e.suffix = "." ++ document_type).map
              fun e => addDocumentsRequest e.docs primary_key }) ∧
    (e0.suffix ≠ "." ++ document_type →
      addDocumentsFromDirectoryTaskGroupPlan (e0 :: rest) document_type primary_key =
        { awaitedAlone := [],
          concurrent :=
            (rest.filter fun e => e.suffix = "." ++ document_type).map
              fun e => addDocumentsRequest e.docs primary_key }) := by
  constructor
  · intro hm
    unfold addDocumentsFromDirectoryTaskGroupPlan
    rw [taskGroupLoop]
    rw [taskGroupLoop_pos document_type primary_key rest 1 (by omega)]
    simp [hm]
  · intro hm
    unfold addDocumentsFromDirectoryTaskGroupPlan
    rw [taskGroupLoop]
    rw [taskGroupLoop_pos document_type primary_key rest 1 (by omega)]
    simp [hm]

/-- Witness for C9 (amended): two `.json` entries with `primary_key="pk"` —
the first is awaited alone without the `primaryKey` parameter, the second is
dispatched concurrently with it; and with a leading `.txt` entry nothing is
awaited alone. -/
theorem taskGroupPlan_first_entry_witness :
    addDocumentsFromDirectoryTaskGroupPlan
        [(⟨".json", [1]⟩ : DirEntry Nat), ⟨".json", [2]⟩] "json" (some "pk") =
      { awaitedAlone := [{ docs := [1], primaryKeyParam := none }],
        concurrent := [{ docs := [2], primaryKeyParam := some "pk" }] } := by
  have h := (taskGroupPlan_first_entry (⟨".json", [1]⟩ : DirEntry Nat)
    [⟨".json", [2]⟩] "json" (some "pk")).1 (by decide)
  rw [h]
  rfl

end MeilisearchSdk
